import Mathlib

/-!
Verification of the service lifecycle and synchronization layer of
`orchestrator/node/node.go` (lukso-orchestrator).  The definitions below
are a shallow embedding of that file: the synchronization gate of
`registerConsensusService`, the signal-escalation loop installed by
`Start`, the construction sequence of `New`, graceful shutdown via
`Close`, and the `Debounce` utility.  All definitions are executable and
translated from the Go source; the service registry, whose
implementation lives outside the embedded file, is modelled from its
specification.
-/

namespace Node

/-! ### Synchronization gate (`registerConsensusService`, node.go lines 204-236) -/

/-- The two vanguard event feeds the gate waits on:
`vanguardHeadersChan` and `vanguardConsensusInfoChan`. -/
inductive Feed
  | headerHash
  | consensusInfo
deriving DecidableEq, Repr

/-- The two boolean flags of the gate loop: `vanguardHeaderLock` and
`vanguardConsensusLock`, both initialized to `true` (armed). -/
structure GateState where
  vanguardHeaderLock : Bool
  vanguardConsensusLock : Bool
deriving DecidableEq, Repr

/-- Initial gate state (`vanguardHeaderLock := true`,
`vanguardConsensusLock := true`). -/
def gateInit : GateState :=
  { vanguardHeaderLock := true, vanguardConsensusLock := true }

/-- The flag guarding a feed. -/
def feedLock (s : GateState) : Feed → Bool
  | .headerHash => s.vanguardHeaderLock
  | .consensusInfo => s.vanguardConsensusLock

/-- Clearing the flag of a feed (`vanguardHeaderLock = false` resp.
`vanguardConsensusLock = false`). -/
def gateStep (s : GateState) : Feed → GateState
  | .headerHash => { s with vanguardHeaderLock := false }
  | .consensusInfo => { s with vanguardConsensusLock := false }

/-- The break condition `!vanguardHeaderLock && !vanguardConsensusLock`. -/
def gateSatisfied (s : GateState) : Bool :=
  !s.vanguardHeaderLock && !s.vanguardConsensusLock

/-- The select loop of `registerConsensusService`, run over a finite
sequence of feed deliveries: an event on a feed whose flag is already
cleared is discarded (the `continue` branch); an event on an armed feed
clears its flag, and the loop breaks as soon as both flags are cleared.
Returns the final state together with the number of deliveries consumed
before the break (all of them when the break is never reached, which in
the Go code means the loop keeps blocking on the channels). -/
def gateRun : GateState → List Feed → GateState × Nat
  | s, [] => (s, 0)
  | s, f :: fs =>
    if feedLock s f = false then
      let r := gateRun s fs
      (r.1, r.2 + 1)
    else
      let s' := gateStep s f
      if gateSatisfied s' = true then (s', 1)
      else
        let r := gateRun s' fs
        (r.1, r.2 + 1)

/-! ### Signal escalation loop (`Start`, node.go lines 305-319) -/

/-- Observable outcome of the signal-handling goroutine of `Start` after
a finite number of delivered termination signals: whether `Close` was
triggered, the warnings logged (the `times` field of each
`Already shutting down, interrupt more to panic` log line, in order),
and whether the final `panic` was reached. -/
structure SignalOutcome where
  closeTriggered : Bool
  warnings : List Nat
  panicked : Bool
deriving DecidableEq, Repr

/-- The counted loop `for i := 10; i > 0; i--` of the signal handler:
the first argument is the loop counter `i`, the second the number of
signals still to be delivered.  Each iteration blocks on one more
signal and, when `i > 1`, logs a warning carrying `i - 1`; when the
loop exhausts its ten iterations the handler panics.  Returns the
logged warnings and whether the panic was reached. -/
def shutdownLoop : Nat → Nat → List Nat × Bool
  | 0, _ => ([], true)
  | _ + 1, 0 => ([], false)
  | i + 1, s + 1 =>
    let r := shutdownLoop i s
    (if i + 1 > 1 then i :: r.1 else r.1, r.2)

/-- The signal-handling goroutine on `n` delivered termination signals:
the first signal triggers `go o.Close()`, the remaining ones feed the
escalation loop. -/
def signalHandler : Nat → SignalOutcome
  | 0 => { closeTriggered := false, warnings := [], panicked := false }
  | s + 1 =>
    let r := shutdownLoop 10 s
    { closeTriggered := true, warnings := r.1, panicked := r.2 }

/-! ### Service registry (external collaborator of node.go) -/

/-- The concrete service variants registered by `New`. -/
inductive ServiceKind
  | vanguard
  | pandora
  | rpcService
  | consensus
deriving DecidableEq, Repr

/-- Errors surfaced by construction and registry operations. -/
inductive Err
  | serviceNotFound
  | duplicateService
  | storageOpenFailed
  | constructionFailed
deriving DecidableEq, Repr

/-- Registration order of the registry, by variant identity. -/
abbrev Registry := List ServiceKind

/-- Modelled from the spec: `shared.ServiceRegistry.RegisterService`
(its implementation is outside the embedded file) "fails with
DuplicateServiceError if a service of the same variant is already
present; otherwise appends to the ordered sequence". -/
def RegisterService (reg : Registry) (k : ServiceKind) : Registry × Option Err :=
  if k ∈ reg then (reg, some .duplicateService) else (reg ++ [k], none)

/-- Modelled from the spec: `shared.ServiceRegistry.FetchService`
(its implementation is outside the embedded file) "returns the
registered instance for the requested variant; fails with
ServiceNotFoundError if absent". -/
def FetchService (reg : Registry) (k : ServiceKind) : Except Err Unit :=
  if k ∈ reg then .ok () else .error .serviceNotFound

/-! ### Contexts and the node (`OrchestratorNode`, `New`, node.go lines 31-80) -/

/-- Context values: `Ctx.withCancel c` models `context.WithCancel(c)`,
which always yields a context distinct from its parent. -/
inductive Ctx
  | root
  | child (parent : Ctx)
deriving DecidableEq, Repr

/-- The derived cancellable context of `context.WithCancel`. -/
def Ctx.withCancel (c : Ctx) : Ctx := .child c

/-- The state of an `OrchestratorNode` observable by the embedded
operations: the CLI context `cliCtx.Context`, the derived cancellable
context `o.ctx`, the storage handle `o.db`, counters for how many times
`services.StopAll()` and `cancel()` have run, whether the `stop`
channel has been closed, and the service registry. -/
structure OrchestratorNode where
  cliCtxContext : Ctx
  ctx : Ctx
  db : Nat
  stopAllCount : Nat
  cancelCount : Nat
  stopClosed : Bool
  services : Registry
deriving DecidableEq, Repr

/-- `registerVanguardChainService` (node.go lines 130-146): when
`vanguardchain.NewService` fails the function executes `return nil`,
reporting success without registering anything; otherwise it registers
the vanguard service.  The construction outcome is injected as
`newErr`. -/
def registerVanguardChainService (newErr : Option Err) (reg : Registry) :
    Registry × Option Err :=
  match newErr with
  | some _ => (reg, none)
  | none => RegisterService reg .vanguard

/-- `registerPandoraChainService` (node.go lines 149-166): when
`pandorachain.NewService` fails the function executes `return nil`,
reporting success without registering anything; otherwise it registers
the pandora service. -/
def registerPandoraChainService (newErr : Option Err) (reg : Registry) :
    Registry × Option Err :=
  match newErr with
  | some _ => (reg, none)
  | none => RegisterService reg .pandora

/-- `registerRPCService` (node.go lines 247-290): first fetches the
vanguard service from the registry, propagating the fetch error; when
`rpc.NewService` fails it executes `return nil`; otherwise it registers
the RPC service. -/
def registerRPCService (newErr : Option Err) (reg : Registry) :
    Registry × Option Err :=
  match FetchService reg .vanguard with
  | .error e => (reg, some e)
  | .ok _ =>
    match newErr with
    | some _ => (reg, none)
    | none => RegisterService reg .rpcService

/-- Outcomes of the external constructors invoked by `New`
(`db.NewDB`, `vanguardchain.NewService`, `pandorachain.NewService`,
`rpc.NewService`), injected as parameters. -/
structure StepOutcomes where
  dbErr : Option Err
  vanguardNewErr : Option Err
  pandoraNewErr : Option Err
  rpcNewErr : Option Err
deriving DecidableEq, Repr

/-- `New` (node.go lines 49-80): derives the cancellable context from
`cliCtx.Context`, opens storage (propagating its error), then runs the
three register functions in order, returning the error of the first one
that reports failure, and otherwise the constructed node.  The
asynchronous `registerConsensusService` goroutine is modelled
separately. -/
def New (steps : StepOutcomes) (parent : Ctx) : Except Err OrchestratorNode :=
  match steps.dbErr with
  | some e => .error e
  | none =>
    let r1 := registerVanguardChainService steps.vanguardNewErr []
    match r1.2 with
    | some e => .error e
    | none =>
      let r2 := registerPandoraChainService steps.pandoraNewErr r1.1
      match r2.2 with
      | some e => .error e
      | none =>
        let r3 := registerRPCService steps.rpcNewErr r2.1
        match r3.2 with
        | some e => .error e
        | none =>
          .ok { cliCtxContext := parent
                ctx := Ctx.withCancel parent
                db := 0
                stopAllCount := 0
                cancelCount := 0
                stopClosed := false
                services := r3.1 }

/-! ### Graceful shutdown (`Close`, node.go lines 326-334) -/

/-- `Close`: under the lock it runs `b.services.StopAll()`, `b.cancel()`
and `close(b.stop)` unconditionally.  In Go, `close` on an already
closed channel panics; the returned flag records whether this call
panicked.  The lock serializes concurrent calls, so any sequence of
calls is modelled by iterating this function. -/
def Close (n : OrchestratorNode) : OrchestratorNode × Bool :=
  let n' := { n with stopAllCount := n.stopAllCount + 1
                     cancelCount := n.cancelCount + 1 }
  if n'.stopClosed then (n', true)
  else ({ n' with stopClosed := true }, false)

/-- The context cancelled by `Close`: `b.cancel()` is the cancel
function of `context.WithCancel(cliCtx.Context)`, so it cancels
`o.ctx`. -/
def cancelTarget (n : OrchestratorNode) : Ctx := n.ctx

/-! ### Consensus service registration (`registerConsensusService`, node.go lines 168-244) -/

/-- How a run of `registerConsensusService` ends: a failed registry
fetch (logged, then `return`), blocking forever on the gate, or
reaching `consensus.New` — recording the context argument and storage
handle it is constructed with, and the outcome of registering it. -/
inductive ConsensusOutcome
  | fetchFailed
  | blockedOnGate
  | registered (ctxArg : Ctx) (dbArg : Nat) (regErr : Option Err)
deriving DecidableEq, Repr

/-- `registerConsensusService`: fetches the vanguard then the pandora
service, returning (after logging) when either fetch fails; then runs
the gate loop over the delivered feed events and, once the gate is
satisfied, constructs the consensus service via
`consensus.New(cliCtx.Context, o.db)` and registers it.  Returns the
resulting registry and the outcome. -/
def registerConsensusService (node : OrchestratorNode) (events : List Feed) :
    Registry × ConsensusOutcome :=
  match FetchService node.services .vanguard with
  | .error _ => (node.services, .fetchFailed)
  | .ok _ =>
    match FetchService node.services .pandora with
    | .error _ => (node.services, .fetchFailed)
    | .ok _ =>
      if gateSatisfied (gateRun gateInit events).1 = true then
        let r := RegisterService node.services .consensus
        (r.1, .registered node.cliCtxContext node.db r.2)
      else (node.services, .blockedOnGate)

/-- A concrete node as `New` builds it on the all-success path:
parent context `Ctx.root`, derived cancellable context, storage handle,
and the three construction-time services in registration order. -/
def node0 : OrchestratorNode :=
  { cliCtxContext := Ctx.root
    ctx := Ctx.withCancel Ctx.root
    db := 0
    stopAllCount := 0
    cancelCount := 0
    stopClosed := false
    services := [.vanguard, .pandora, .rpcService] }

/-! ### Debounce (node.go lines 337-361) -/

/-- How a run of `Debounce` ends: `returned` (the function returns),
`blocked` (it stays suspended on a channel receive forever), or
`diverged` (the inner select spins on the closed events channel,
recreating the timer each iteration, and never makes progress). -/
inductive DebounceExit
  | returned
  | blocked
  | diverged
deriving DecidableEq, Repr

/-- The inner select loop of `Debounce`, holding a buffered event `e`
received at time `now`, with quiescence interval `interval`, the
channel-close time `ct` (all deliveries precede it), the
context-cancellation time `kt`, and the remaining timed deliveries.
Each iteration creates a fresh timer expiring at `now + interval` and
waits for the earliest of: the cancellation (ready from `kt` on; wins
ties), the next channel receive (the next delivery, or — once the
channel is closed and drained — an immediately-ready zero-value receive,
which makes the loop spin), and the timer, which fires the handler with
the buffered event and falls back to the outer receive.  Returns the
list of (time, event) handler invocations and how the run ends. -/
def debounceInner (interval : Nat) (ct kt : Option Nat) :
    Nat → α → List (Nat × α) → List (Nat × α) × DebounceExit
  | now, e, [] =>
    let deadline := now + interval
    match kt, ct with
    | some k, some c =>
      if max now k ≤ min (max now c) deadline then ([], .returned)
      else if max now c ≤ deadline then ([], .diverged)
      else ([(deadline, e)], .returned)
    | some k, none =>
      if max now k ≤ deadline then ([], .returned)
      else ([(deadline, e)], .blocked)
    | none, some c =>
      if max now c ≤ deadline then ([], .diverged)
      else ([(deadline, e)], .returned)
    | none, none => ([(deadline, e)], .blocked)
  | now, e, (t, e') :: rest =>
    let deadline := now + interval
    match kt with
    | some k =>
      if max now k ≤ min t deadline then ([], .returned)
      else if t ≤ deadline then debounceInner interval ct kt t e' rest
      else
        let r := debounceInner interval ct kt t e' rest
        ((deadline, e) :: r.1, r.2)
    | none =>
      if t ≤ deadline then debounceInner interval ct kt t e' rest
      else
        let r := debounceInner interval ct kt t e' rest
        ((deadline, e) :: r.1, r.2)

/-- `Debounce`: the outer `for event := range eventsChan` loop.  It
waits for the next delivery without consulting the cancellation
context; when the channel is closed and drained the range loop ends and
the function returns; when the channel stays open and no delivery
arrives it stays blocked; a delivery enters the inner select loop. -/
def Debounce (interval : Nat) (ct kt : Option Nat) (ds : List (Nat × α)) :
    List (Nat × α) × DebounceExit :=
  match ds with
  | [] => ([], match ct with | some _ => .returned | none => .blocked)
  | (t, e) :: rest => debounceInner interval ct kt t e rest

/-- The last delivery of a nonempty burst `p :: rest`. -/
def lastEvent (p : Nat × α) : List (Nat × α) → Nat × α
  | [] => p
  | q :: rest => lastEvent q rest

/-- Bursts: each delivery arrives strictly less than `interval` after
the previous one (`prev` is the time of the preceding delivery). -/
def isBurst (interval : Nat) : Nat → List (Nat × α) → Bool
  | _, [] => true
  | prev, (t, _) :: rest => decide (t < prev + interval) && isBurst interval t rest

/-! ### Lock and stop-channel ordering of Start and Close (node.go lines 293-334) -/

/-- The atomic steps of `Start` and `Close` that touch the lifecycle
lock or the stop channel. -/
inductive Action
  | lockAcquire
  | lockRelease
  | startAll
  | readStop
  | spawnHandler
  | waitStop
  | stopAll
  | cancelCtx
  | closeStop
deriving DecidableEq, BEq, Repr

/-- The straight-line action sequence of `Start` (node.go lines
293-323): acquire the lock, `services.StartAll()`, read `o.stop` into a
local, release the lock, spawn the signal-handling goroutine, block on
the stop channel. -/
def startTrace : List Action :=
  [.lockAcquire, .startAll, .readStop, .lockRelease, .spawnHandler, .waitStop]

/-- The straight-line action sequence of `Close` (node.go lines
326-334): acquire the lock, `services.StopAll()`, `cancel()`,
`close(b.stop)`, release the lock (the deferred unlock). -/
def closeTrace : List Action :=
  [.lockAcquire, .stopAll, .cancelCtx, .closeStop, .lockRelease]

/-- Lock-and-stop-channel state shared by `Start` and `Close`. -/
structure LState where
  lockHeld : Bool
  stopClosed : Bool
deriving DecidableEq, Repr

/-- Effect of one action on the shared state: acquiring a held lock or
waiting on a still-open stop channel blocks (`none`), and closing an
already closed stop channel is a fatal error (`none`). -/
def execAction (s : LState) : Action → Option LState
  | .lockAcquire => if s.lockHeld then none else some { s with lockHeld := true }
  | .lockRelease => some { s with lockHeld := false }
  | .closeStop => if s.stopClosed then none else some { s with stopClosed := true }
  | .waitStop => if s.stopClosed then some s else none
  | _ => some s

/-- Running a sequence of actions, stopping at the first one that
blocks or fails. -/
def execTrace (s : LState) : List Action → Option LState
  | [] => some s
  | a :: as =>
    match execAction s a with
    | none => none
    | some s' => execTrace s' as

/-! ## Theorems -/

/-- The gate is satisfied after a run exactly when, for each feed, its
flag was already cleared at the start or the feed delivered at least one
event. -/
lemma gateRun_satisfied_iff (evs : List Feed) :
    ∀ s : GateState,
      ((gateRun s evs).1.vanguardHeaderLock = false ∧
       (gateRun s evs).1.vanguardConsensusLock = false) ↔
      ((s.vanguardHeaderLock = false ∨ Feed.headerHash ∈ evs) ∧
       (s.vanguardConsensusLock = false ∨ Feed.consensusInfo ∈ evs)) := by
  induction evs with
  | nil =>
    intro s
    simp [gateRun]
  | cons f fs ih =>
    intro s
    obtain ⟨h, c⟩ := s
    cases f <;> cases h <;> cases c <;>
      simp [gateRun, feedLock, gateStep, gateSatisfied, ih]

/-- C3: the synchronization-gate loop of `registerConsensusService`
terminates exactly when each of the two feeds has delivered at least one
event; one event on each feed, in either order, satisfies it after
exactly two deliveries; any number of events on one feed alone never
satisfies it; and an event on an already-satisfied feed is discarded
without further effect (the state is unchanged, only the delivery count
grows). -/
theorem C3_gate_barrier :
    (∀ evs : List Feed, gateSatisfied (gateRun gateInit evs).1 = true ↔
        (Feed.headerHash ∈ evs ∧ Feed.consensusInfo ∈ evs)) ∧
    gateRun gateInit [Feed.headerHash, Feed.consensusInfo] =
      ({ vanguardHeaderLock := false, vanguardConsensusLock := false }, 2) ∧
    gateRun gateInit [Feed.consensusInfo, Feed.headerHash] =
      ({ vanguardHeaderLock := false, vanguardConsensusLock := false }, 2) ∧
    (∀ n : Nat,
      gateSatisfied (gateRun gateInit (List.replicate n Feed.headerHash)).1 = false ∧
      gateSatisfied (gateRun gateInit (List.replicate n Feed.consensusInfo)).1 = false) ∧
    (∀ (s : GateState) (f : Feed) (fs : List Feed), feedLock s f = false →
        (gateRun s (f :: fs)).1 = (gateRun s fs).1 ∧
        (gateRun s (f :: fs)).2 = (gateRun s fs).2 + 1) := by
  refine ⟨?_, by decide, by decide, ?_, ?_⟩
  · intro evs
    have h := gateRun_satisfied_iff evs gateInit
    simp [gateInit] at h
    simp only [gateSatisfied, Bool.and_eq_true, Bool.not_eq_true']
    exact h
  · intro n
    constructor
    · have h := (gateRun_satisfied_iff (List.replicate n Feed.headerHash) gateInit).mp
      rw [← Bool.not_eq_true]
      simp only [gateSatisfied, Bool.and_eq_true, Bool.not_eq_true']
      intro hcon
      exact absurd (h hcon) (by simp [gateInit, List.mem_replicate])
    · have h := (gateRun_satisfied_iff (List.replicate n Feed.consensusInfo) gateInit).mp
      rw [← Bool.not_eq_true]
      simp only [gateSatisfied, Bool.and_eq_true, Bool.not_eq_true']
      intro hcon
      exact absurd (h hcon) (by simp [gateInit, List.mem_replicate])
  · intro s f fs hf
    constructor <;> simp [gateRun, hf]

/-- Witness for C3 at a concrete state and feed: an event on the
already-satisfied header feed is discarded. -/
theorem C3_gate_barrier_witness :
    (gateRun { vanguardHeaderLock := false, vanguardConsensusLock := true }
        [Feed.headerHash]).1 =
      (gateRun { vanguardHeaderLock := false, vanguardConsensusLock := true } []).1 ∧
    (gateRun { vanguardHeaderLock := false, vanguardConsensusLock := true }
        [Feed.headerHash]).2 =
      (gateRun { vanguardHeaderLock := false, vanguardConsensusLock := true } []).2 + 1 :=
  C3_gate_barrier.2.2.2.2 { vanguardHeaderLock := false, vanguardConsensusLock := true }
    Feed.headerHash [] rfl

/-- C2: in the signal-handling loop of `Start`, the first termination
signal triggers `Close`; after 1 to 10 received signals the process has
not panicked; each of signals 2 through 10 logs a warning carrying the
remaining count `11 - k`; the 11th signal logs no further warning and
reaches the panic. -/
theorem C2_signal_escalation :
    (∀ n < 11, (signalHandler n).panicked = false) ∧
    (∀ n < 12, 1 ≤ n → (signalHandler n).closeTriggered = true) ∧
    (∀ k < 11, 2 ≤ k → ((signalHandler k).warnings).getLast? = some (11 - k)) ∧
    (signalHandler 11).warnings = (signalHandler 10).warnings ∧
    (signalHandler 11).panicked = true := by
  refine ⟨?_, ?_, ?_, by decide, by decide⟩ <;> decide

/-- Witness for C2 at five delivered signals: not yet panicked, `Close`
triggered, and the fifth signal logged remaining count 6. -/
theorem C2_signal_escalation_witness :
    (signalHandler 5).panicked = false ∧
    (signalHandler 5).closeTriggered = true ∧
    ((signalHandler 5).warnings).getLast? = some 6 :=
  ⟨C2_signal_escalation.1 5 (by decide),
   C2_signal_escalation.2.1 5 (by decide) (by decide),
   C2_signal_escalation.2.2.1 5 (by decide) (by decide)⟩

/-- C4 (evaluation at the failing input): when the second chain-watcher
construction fails (`pandorachain.NewService` returns an error), `New`
does not short-circuit with an error — `registerPandoraChainService`
executes `return nil`, so `New` returns a node whose registry lacks the
pandora service, and reports no error to the caller. -/
theorem C4_new_swallows_pandora_failure :
    New { dbErr := none, vanguardNewErr := none,
          pandoraNewErr := some .constructionFailed, rpcNewErr := none } Ctx.root =
      .ok { cliCtxContext := Ctx.root
            ctx := Ctx.withCancel Ctx.root
            db := 0
            stopAllCount := 0
            cancelCount := 0
            stopClosed := false
            services := [.vanguard, .rpcService] } := rfl

/-- C6: when the vanguard service is absent from the registry,
`registerRPCService` returns the `ServiceNotFoundError` of the fetch and
leaves the registry unchanged, so no RPC service is added. -/
theorem C6_rpc_requires_vanguard (reg : Registry) (newErr : Option Err)
    (h : ServiceKind.vanguard ∉ reg) :
    registerRPCService newErr reg = (reg, some Err.serviceNotFound) := by
  simp [registerRPCService, FetchService, h]

/-- Witness for C6 on the empty registry. -/
theorem C6_rpc_requires_vanguard_witness :
    registerRPCService none [] = ([], some Err.serviceNotFound) :=
  C6_rpc_requires_vanguard [] none (by decide)

/-- C7: when either upstream service is absent from the registry,
`registerConsensusService` returns normally with outcome `fetchFailed`
(the error is logged, not propagated — the function has no error
channel), the registry is unchanged, and no consensus service is
registered. -/
theorem C7_consensus_fetch_nonfatal (node : OrchestratorNode) (events : List Feed)
    (h : ServiceKind.vanguard ∉ node.services ∨ ServiceKind.pandora ∉ node.services) :
    registerConsensusService node events = (node.services, .fetchFailed) := by
  rcases h with h | h
  · simp [registerConsensusService, FetchService, h]
  · by_cases hv : ServiceKind.vanguard ∈ node.services
    · simp [registerConsensusService, FetchService, h, hv]
    · simp [registerConsensusService, FetchService, hv]

/-- Witness for C7 on a node with an empty registry. -/
theorem C7_consensus_fetch_nonfatal_witness :
    registerConsensusService { node0 with services := [] } [] =
      (({ node0 with services := [] } : OrchestratorNode).services, .fetchFailed) :=
  C7_consensus_fetch_nonfatal { node0 with services := [] } [] (Or.inl (by decide))

/-- C5 (counterexample): on the node `New` builds from the parent
context `Ctx.root`, once the gate is satisfied the consensus service is
constructed with `cliCtx.Context` (that parent context) — which is not
the node's cancellable execution context, the one whose cancel function
`Close` invokes. -/
theorem C5_consensus_ctx_counterexample :
    (registerConsensusService node0 [Feed.headerHash, Feed.consensusInfo]).2 =
      ConsensusOutcome.registered Ctx.root 0 none ∧
    Ctx.root ≠ cancelTarget node0 ∧
    (registerConsensusService node0 [Feed.headerHash, Feed.consensusInfo]).2 ≠
      ConsensusOutcome.registered (cancelTarget node0) node0.db none := by
  refine ⟨by decide, by decide, by decide⟩

/-- C5 (amended): once the synchronization gate is satisfied, the
consensus-aggregation service is constructed with the parent CLI
context `cliCtx.Context` (from which the node's cancellable context was
derived) and the storage handle, and registered. -/
theorem C5_consensus_ctx_amended (node : OrchestratorNode) (events : List Feed)
    (hv : ServiceKind.vanguard ∈ node.services)
    (hp : ServiceKind.pandora ∈ node.services)
    (hg : gateSatisfied (gateRun gateInit events).1 = true) :
    (registerConsensusService node events).2 =
      ConsensusOutcome.registered node.cliCtxContext node.db
        (RegisterService node.services .consensus).2 := by
  simp [registerConsensusService, FetchService, hv, hp, hg]

/-- Witness for the amended C5 on `node0` with one event per feed. -/
theorem C5_consensus_ctx_amended_witness :
    (registerConsensusService node0 [Feed.headerHash, Feed.consensusInfo]).2 =
      ConsensusOutcome.registered node0.cliCtxContext node0.db
        (RegisterService node0.services .consensus).2 :=
  C5_consensus_ctx_amended node0 [Feed.headerHash, Feed.consensusInfo]
    (by decide) (by decide) (by decide)

/-- C1 (counterexample): calling `Close` twice on a freshly constructed
node runs `services.StopAll()` twice, and the second call reaches
`close(b.stop)` with the stop channel already closed — a double-close,
which panics in Go.  The claim that any number of `Close` invocations
stop the services exactly once and close the stop channel exactly once
is therefore false at two invocations. -/
theorem C1_close_counterexample :
    (Close (Close node0).1).1.stopAllCount = 2 ∧
    (Close (Close node0).1).2 = true ∧
    ¬ ((Close (Close node0).1).1.stopAllCount = 1 ∧
       (Close (Close node0).1).2 = false) := by
  refine ⟨by decide, by decide, by decide⟩

/-- C1 (amended): the lock serializes concurrent `Close` calls, and a
single `Close` on a node whose stop channel is still open stops the
services once, cancels the context once, and closes the stop channel
without panicking; but `Close` is not idempotent: every call runs
`StopAll` again, and a call finding the stop channel already closed
panics on the double-close. -/
theorem C1_close_single_shot (n : OrchestratorNode) :
    (n.stopClosed = false →
      (Close n).1.stopClosed = true ∧
      (Close n).2 = false ∧
      (Close n).1.stopAllCount = n.stopAllCount + 1 ∧
      (Close n).1.cancelCount = n.cancelCount + 1) ∧
    (n.stopClosed = true →
      (Close n).2 = true ∧
      (Close n).1.stopAllCount = n.stopAllCount + 1) := by
  constructor <;> intro h <;> simp [Close, h]

/-- Witness for the amended C1 on a fresh node. -/
theorem C1_close_single_shot_witness :
    (Close node0).1.stopClosed = true ∧
    (Close node0).2 = false ∧
    (Close node0).1.stopAllCount = node0.stopAllCount + 1 ∧
    (Close node0).1.cancelCount = node0.cancelCount + 1 :=
  (C1_close_single_shot node0).1 rfl

/-- Running the inner select loop over a burst (each delivery strictly
less than one interval after the previous) with the channel open and no
cancellation fires the handler exactly once, one interval after the
last delivery, with the last delivered event, and then blocks on the
outer receive. -/
lemma debounceInner_burst (interval : Nat) :
    ∀ (rest : List (Nat × α)) (t0 : Nat) (e0 : α),
      isBurst interval t0 rest = true →
      debounceInner interval none none t0 e0 rest =
        ([((lastEvent (t0, e0) rest).1 + interval, (lastEvent (t0, e0) rest).2)],
          .blocked) := by
  intro rest
  induction rest with
  | nil => intro t0 e0 _; rfl
  | cons p rs ih =>
    intro t0 e0 h
    obtain ⟨t1, e1⟩ := p
    simp [isBurst] at h
    obtain ⟨h1, h2⟩ := h
    simp [debounceInner, lastEvent, Nat.le_of_lt h1, ih t1 e1 h2]

/-- C8: on any burst of deliveries in which every event arrives strictly
closer than the quiescence interval after the previous one, with the
channel then quiet, `Debounce` invokes the handler exactly once, one
full interval after the last delivery, with that last event (and then
keeps waiting for further events). -/
theorem C8_debounce_coalesces (interval t0 : Nat) (e0 : α) (rest : List (Nat × α))
    (h : isBurst interval t0 rest = true) :
    Debounce interval none none ((t0, e0) :: rest) =
      ([((lastEvent (t0, e0) rest).1 + interval, (lastEvent (t0, e0) rest).2)],
        DebounceExit.blocked) :=
  debounceInner_burst interval rest t0 e0 h

/-- Witness for C8 at the specification scenario: deliveries at times
0, 10 and 20 with interval 50 produce exactly one handler call, at time
70, with the event delivered at time 20. -/
theorem C8_debounce_coalesces_witness :
    Debounce 50 none none [(0, (7 : Nat)), (10, 8), (20, 9)] =
      ([(70, 9)], DebounceExit.blocked) :=
  C8_debounce_coalesces 50 0 7 [(10, 8), (20, 9)] (by decide)

/-- C9 (counterexample): with no delivery pending, the channel open, and
the cancellation context fired at time 0, `Debounce` stays blocked on
the outer `for range` receive — which never consults the context — so
it does not terminate, contradicting the claim that it terminates when
the cancellation context fires. -/
theorem C9_debounce_counterexample :
    (Debounce 50 none (some 0) ([] : List (Nat × Nat))).2 = DebounceExit.blocked ∧
    DebounceExit.blocked ≠ DebounceExit.returned := by
  refine ⟨rfl, by decide⟩

/-- C9 (amended): `Debounce` returns, without invoking the handler on
exit, when the inbound channel is closed while no event is buffered
(the outer receive), and when the cancellation context fires while an
event is buffered in the inner loop (before its quiescence timer and
any further delivery); cancellation while it is idle at the outer
receive leaves it blocked rather than returning. -/
theorem C9_debounce_exit_amended {α : Type} (interval : Nat) :
    (∀ (c : Nat) (kt : Option Nat),
        Debounce interval (some c) kt ([] : List (Nat × α)) = ([], .returned)) ∧
    (∀ (t k : Nat) (e : α), max t k < t + interval →
        Debounce interval none (some k) [(t, e)] = ([], .returned)) ∧
    (∀ k : Nat, Debounce interval none (some k) ([] : List (Nat × α)) =
        ([], .blocked)) := by
  refine ⟨fun c kt => rfl, ?_, fun k => rfl⟩
  intro t k e h
  simp [Debounce, debounceInner, Nat.le_of_lt h]

/-- Witness for the amended C9: cancellation at time 10 while the event
delivered at time 0 is buffered (interval 50) makes `Debounce` return
without calling the handler. -/
theorem C9_debounce_exit_amended_witness :
    Debounce 50 none (some 10) [(0, (7 : Nat))] = ([], DebounceExit.returned) :=
  (C9_debounce_exit_amended 50).2.1 0 10 7 (by decide)

/-- C10: in `Start`, the lock release comes after `StartAll` and before
the block on the stop channel, so the lock is free while `Start` waits
(running `Start`'s prefix leaves the lock unheld); `Start` alone cannot
pass the wait (the stop channel is still open); and interleaving
`Close` — invoked from the signal-handling task — at that point
acquires the free lock, runs to completion and closes the stop channel,
after which `Start`'s wait succeeds: no self-deadlock between `Start`
and `Close`. -/
theorem C10_start_close_no_deadlock :
    startTrace.indexOf Action.startAll < startTrace.indexOf Action.lockRelease ∧
    startTrace.indexOf Action.lockRelease < startTrace.indexOf Action.waitStop ∧
    execTrace { lockHeld := false, stopClosed := false } (startTrace.take 5) =
      some { lockHeld := false, stopClosed := false } ∧
    execTrace { lockHeld := false, stopClosed := false } startTrace = none ∧
    execTrace { lockHeld := false, stopClosed := false }
        (startTrace.take 5 ++ closeTrace ++ startTrace.drop 5) =
      some { lockHeld := false, stopClosed := true } := by
  decide

end Node
